import Mathlib

/-!
Shallow embedding of the CHIP-8 interpreter core from `src/chip8.rs` (and the
font constant from `src/main.rs`).

Conventions of the embedding:
* Machine integers (`u8`, `u16`) are `Nat` with explicit wrap-around
  (`% 256`, `% 65536`) exactly where the Rust code performs arithmetic on them;
  plain Rust `+`/`-`/`*`/`<<` on machine integers is embedded with the
  wrapping (release-profile) semantics, which is also how the specification
  describes the reference behaviour ("silently wraps/underflows").
* Fixed-size Rust arrays are embedded as total functions `Nat → Nat`
  (resp. `Nat → Bool` for the keypad) together with bounds-checked access
  helpers; an out-of-bounds slice index is a Rust panic and is embedded as an
  `Except.error` carrying the offending index.
* Rust `panic!` in `parse_op_code` is embedded as an `Except.error` carrying
  the offending opcode.
* `random::<u8>()` of opcode `Cxkk` draws an external random byte; it is
  embedded as an explicit `rnd` parameter threaded into the dispatcher.
* The SDL canvas/texture fields and all rendering/input glue are out of scope
  (they never influence the interpreter state transitions).
-/

namespace Chip8

/-- Run-time failures of the interpreter: the `panic!("Unknown opcode …")`
calls in `parse_op_code`, Rust's slice-index-out-of-bounds panics, and the
ROM-too-large panic in `load_rom`. -/
inductive Err where
  | unknownOpcode (op : Nat)
  | indexOutOfBounds (idx : Nat)
  | romTooLarge (len : Nat)
deriving DecidableEq

/-- The interpreter state, mirroring `struct VM` in `src/chip8.rs`
(fields `canvas`, `display_texture`, `texture_creator` are rendering glue and
are omitted).  `v` has 16 `u8` cells, `stack` 16 `u16` cells, `memory` 4096
`u8` cells, `display` 64×32 `u8` cells, `keypad` 16 `bool` cells. -/
structure VM where
  op : Nat
  v : Nat → Nat
  i : Nat
  pc : Nat
  stack : Nat → Nat
  sp : Nat
  delay : Nat
  sound : Nat
  memory : Nat → Nat
  display : Nat → Nat
  drawflag : Bool
  keypad : Nat → Bool

/-- Pointwise update of an embedded array. -/
def updArr (a : Nat → Nat) (idx val : Nat) : Nat → Nat :=
  fun j => if j = idx then val else a j

/-- Bounds-checked read of an embedded array of length `len`
(Rust slice indexing; out of bounds is a panic). -/
def readArr (a : Nat → Nat) (len idx : Nat) : Except Err Nat :=
  if idx < len then .ok (a idx) else .error (.indexOutOfBounds idx)

/-- Bounds-checked write to an embedded array of length `len`. -/
def writeArr (a : Nat → Nat) (len idx val : Nat) : Except Err (Nat → Nat) :=
  if idx < len then .ok (updArr a idx val) else .error (.indexOutOfBounds idx)

/-- Bounds-checked read of the 16-entry keypad. -/
def readKey (a : Nat → Bool) (idx : Nat) : Except Err Bool :=
  if idx < 16 then .ok (a idx) else .error (.indexOutOfBounds idx)

/-- Bounds-checked write to the 16-entry keypad. -/
def writeKey (a : Nat → Bool) (idx : Nat) (val : Bool) : Except Err (Nat → Bool) :=
  if idx < 16 then .ok (fun j => if j = idx then val else a j)
  else .error (.indexOutOfBounds idx)

/-- Opcode `00E0` (`fn _0x00e0`): clear the whole framebuffer, `pc += 2`. -/
def _0x00e0 (s : VM) : Except Err VM :=
  .ok { s with display := fun _ => 0, pc := (s.pc + 2) % 65536 }

/-- Opcode `00EE` (`fn _0x00ee`): `pc = stack[sp] + 2; sp -= 1`.
The `u16` decrement of `sp` wraps at 0. -/
def _0x00ee (s : VM) : Except Err VM :=
  match readArr s.stack 16 s.sp with
  | .error e => .error e
  | .ok top => .ok { s with pc := (top + 2) % 65536, sp := (s.sp + 65535) % 65536 }

/-- Opcode `1nnn` (`fn _1nnn`): `pc = nnn`. -/
def _1nnn (nnn : Nat) (s : VM) : Except Err VM :=
  .ok { s with pc := nnn }

/-- Opcode `2nnn` (`fn _2nnn`): `sp += 1; stack[sp] = pc; pc = nnn`. -/
def _2nnn (nnn : Nat) (s : VM) : Except Err VM :=
  let sp1 := (s.sp + 1) % 65536
  match writeArr s.stack 16 sp1 s.pc with
  | .error e => .error e
  | .ok st => .ok { s with sp := sp1, stack := st, pc := nnn }

/-- Opcode `3xkk` (`fn _3xkk`): skip next instruction if `v[x] == kk`. -/
def _3xkk (x kk : Nat) (s : VM) : Except Err VM :=
  if s.v x = kk then .ok { s with pc := (s.pc + 4) % 65536 }
  else .ok { s with pc := (s.pc + 2) % 65536 }

/-- Opcode `4xkk` (`fn _4xkk`): skip next instruction if `v[x] != kk`. -/
def _4xkk (x kk : Nat) (s : VM) : Except Err VM :=
  if s.v x ≠ kk then .ok { s with pc := (s.pc + 4) % 65536 }
  else .ok { s with pc := (s.pc + 2) % 65536 }

/-- Opcode `5xy0` (`fn _5xy0`): the source compares the decoded register
indices `x == y` (not the register values). -/
def _5xy0 (x y : Nat) (s : VM) : Except Err VM :=
  if x = y then .ok { s with pc := (s.pc + 4) % 65536 }
  else .ok { s with pc := (s.pc + 2) % 65536 }

/-- Opcode `6xkk` (`fn _6xkk`): `v[x] = kk`. -/
def _6xkk (x kk : Nat) (s : VM) : Except Err VM :=
  .ok { s with v := updArr s.v x kk, pc := (s.pc + 2) % 65536 }

/-- Opcode `7xkk` (`fn _7xkk`): `v[x] = v[x].wrapping_add(kk)`. -/
def _7xkk (x kk : Nat) (s : VM) : Except Err VM :=
  .ok { s with v := updArr s.v x ((s.v x + kk) % 256), pc := (s.pc + 2) % 65536 }

/-- Opcode `8xy0` (`fn _8xy0`): `v[x] = v[y]`. -/
def _8xy0 (x y : Nat) (s : VM) : Except Err VM :=
  .ok { s with v := updArr s.v x (s.v y), pc := (s.pc + 2) % 65536 }

/-- Opcode `8xy1` (`fn _8xy1`): `v[x] |= v[y]`. -/
def _8xy1 (x y : Nat) (s : VM) : Except Err VM :=
  .ok { s with v := updArr s.v x (s.v x ||| s.v y), pc := (s.pc + 2) % 65536 }

/-- Opcode `8xy2` (`fn _8xy2`): `v[x] &= v[y]`. -/
def _8xy2 (x y : Nat) (s : VM) : Except Err VM :=
  .ok { s with v := updArr s.v x (s.v x &&& s.v y), pc := (s.pc + 2) % 65536 }

/-- Opcode `8xy3` (`fn _8xy3`): `v[x] ^= v[y]`. -/
def _8xy3 (x y : Nat) (s : VM) : Except Err VM :=
  .ok { s with v := updArr s.v x (s.v x ^^^ s.v y), pc := (s.pc + 2) % 65536 }

/-- Opcode `8xy4` (`fn _8xy4`): `(result, carry) = v[x].overflowing_add(v[y])`;
`v[0xF]` is written with the carry bit before `v[x]` receives the result. -/
def _8xy4 (x y : Nat) (s : VM) : Except Err VM :=
  let a := s.v x
  let b := s.v y
  let v1 := updArr s.v 15 (if 256 ≤ a + b then 1 else 0)
  .ok { s with v := updArr v1 x ((a + b) % 256), pc := (s.pc + 2) % 65536 }

/-- Opcode `8xy5` (`fn _8xy5`): `(result, borrow) = v[x].overflowing_sub(v[y])`;
`v[0xF] = if borrow { 0 } else { 1 }` is written before `v[x]`. -/
def _8xy5 (x y : Nat) (s : VM) : Except Err VM :=
  let a := s.v x
  let b := s.v y
  let v1 := updArr s.v 15 (if a < b then 0 else 1)
  .ok { s with v := updArr v1 x ((a + 256 - b) % 256), pc := (s.pc + 2) % 65536 }

/-- Opcode `8xy6` (`fn _8xy6`): `v[x] = v[y] >> 1;` THEN `v[0xF] = v[y] & 1`.
The flag read happens after the `v[x]` write (visible when `x == y`). -/
def _8xy6 (x y : Nat) (s : VM) : Except Err VM :=
  let v1 := updArr s.v x (s.v y >>> 1)
  let v2 := updArr v1 15 (v1 y &&& 0x01)
  .ok { s with v := v2, pc := (s.pc + 2) % 65536 }

/-- Opcode `8xy7` (`fn _8xy7`): `v[0xF] = (v[y] > v[x]) as u8` first, then
`v[x] = v[y].wrapping_sub(v[x])` where the operands are re-read after the
flag write. -/
def _8xy7 (x y : Nat) (s : VM) : Except Err VM :=
  let v1 := updArr s.v 15 (if s.v x < s.v y then 1 else 0)
  let v2 := updArr v1 x ((v1 y + 256 - v1 x) % 256)
  .ok { s with v := v2, pc := (s.pc + 2) % 65536 }

/-- Opcode `8xyE` (`fn _8xye`): `v[x] = v[y] << 1;` THEN `v[0xF] = v[y] & 0x80`.
The `u8` shift truncates mod 256; the flag value is 0 or 0x80 (not 0 or 1),
and the flag read happens after the `v[x]` write. -/
def _8xye (x y : Nat) (s : VM) : Except Err VM :=
  let v1 := updArr s.v x ((s.v y <<< 1) % 256)
  let v2 := updArr v1 15 (v1 y &&& 0x80)
  .ok { s with v := v2, pc := (s.pc + 2) % 65536 }

/-- Opcode `9xy0` (`fn _9xy0`): the source skips when `v[x] == v[y]`. -/
def _9xy0 (x y : Nat) (s : VM) : Except Err VM :=
  if s.v x = s.v y then .ok { s with pc := (s.pc + 4) % 65536 }
  else .ok { s with pc := (s.pc + 2) % 65536 }

/-- Opcode `Annn` (`fn _annn`): `i = nnn; pc += 2`. -/
def _annn (nnn : Nat) (s : VM) : Except Err VM :=
  .ok { s with i := nnn, pc := (s.pc + 2) % 65536 }

/-- Opcode `Bnnn` (`fn _bnnn`): `pc = nnn + v[0]; pc += 2`. -/
def _bnnn (nnn : Nat) (s : VM) : Except Err VM :=
  let p1 := (nnn + s.v 0) % 65536
  .ok { s with pc := (p1 + 2) % 65536 }

/-- Opcode `Cxkk` (`fn _cxkk`): `v[x] = random::<u8>() & kk`; the random byte
is the external parameter `rnd` (masked to a byte). -/
def _cxkk (rnd x kk : Nat) (s : VM) : Except Err VM :=
  .ok { s with v := updArr s.v x ((rnd % 256) &&& kk), pc := (s.pc + 2) % 65536 }

/-- Inner column loop of `fn _dxyn` (`for x_line in 0..8`), threading the
framebuffer and the collision flag.  The argument after `xpos` is the number
of columns processed so far (columns run 0,1,…  in source order). -/
def dxynInner (disp : Nat → Nat) (vf pixel yrow xpos : Nat) : Nat → ((Nat → Nat) × Nat)
  | 0 => (disp, vf)
  | c + 1 =>
    let df := dxynInner disp vf pixel yrow xpos c
    let idx := yrow * 64 + (xpos + c) % 64
    let sbit := (pixel >>> (7 - c)) &&& 1
    let nf := if df.1 idx = 1 ∧ sbit = 1 then 1 else df.2
    (updArr df.1 idx ((df.1 idx) ^^^ sbit), nf)

/-- Outer row loop of `fn _dxyn` (`for y_line in 0..height`): row `r` reads the
sprite byte `memory[(i + r) as u16]` (bounds-checked) and processes its 8
columns. -/
def dxynRows (mem : Nat → Nat) (idx0 ypos xpos : Nat) (disp : Nat → Nat) (vf : Nat) :
    Nat → Except Err ((Nat → Nat) × Nat)
  | 0 => .ok (disp, vf)
  | r + 1 =>
    match dxynRows mem idx0 ypos xpos disp vf r with
    | .error e => .error e
    | .ok df =>
      match readArr mem 4096 ((idx0 + r) % 65536) with
      | .error e => .error e
      | .ok pixel => .ok (dxynInner df.1 df.2 pixel ((ypos + r) % 32) xpos 8)

/-- Opcode `Dxyn` (`fn _dxyn`): draw an `n`-row sprite from `memory[i..]` at
`(v[x], v[y])` with torus wraparound, XOR-ing pixels, collision into `v[0xF]`
(reset to 0 first), `drawflag = true`, `pc += 2`. -/
def _dxyn (x y : Nat) (s : VM) : Except Err VM :=
  let xpos := s.v x
  let ypos := s.v y
  let height := s.op &&& 0x000F
  match dxynRows s.memory s.i ypos xpos s.display 0 height with
  | .error e => .error e
  | .ok df =>
    .ok { s with display := df.1, v := updArr s.v 15 df.2, drawflag := true,
                 pc := (s.pc + 2) % 65536 }

/-- Opcode `Ex9E` (`fn _ex9e`): skip if `keypad[v[x]]` is pressed. -/
def _ex9e (x : Nat) (s : VM) : Except Err VM :=
  match readKey s.keypad (s.v x) with
  | .error e => .error e
  | .ok b =>
    if b then .ok { s with pc := (s.pc + 4) % 65536 }
    else .ok { s with pc := (s.pc + 2) % 65536 }

/-- Opcode `ExA1` (`fn _exa1`): skip if `keypad[v[x]]` is not pressed;
otherwise clear that key's latch and `pc += 2`. -/
def _exa1 (x : Nat) (s : VM) : Except Err VM :=
  match readKey s.keypad (s.v x) with
  | .error e => .error e
  | .ok b =>
    if ¬ b then .ok { s with pc := (s.pc + 4) % 65536 }
    else
      match writeKey s.keypad (s.v x) false with
      | .error e => .error e
      | .ok kp => .ok { s with keypad := kp, pc := (s.pc + 2) % 65536 }

/-- Opcode `Fx07` (`fn _fx07`): `v[x] = delay; pc += 2`. -/
def _fx07 (x : Nat) (s : VM) : Except Err VM :=
  .ok { s with v := updArr s.v x s.delay, pc := (s.pc + 2) % 65536 }

/-- Key-scan loop of `fn _fx0a` (`for key in self.keypad`): for EVERY pressed
key (the source's `return` is commented out) it sets `v[x] = key as u8 = 1`
and advances `pc` by 2.  The argument is the number of keys scanned so far;
`keys` is the (copied) keypad being iterated. -/
def fx0aLoop (keys : Nat → Bool) (x : Nat) (s : VM) : Nat → VM
  | 0 => s
  | k + 1 =>
    let t := fx0aLoop keys x s k
    if keys k then { t with v := updArr t.v x 1, pc := (t.pc + 2) % 65536 } else t

/-- Opcode `Fx0A` (`fn _fx0a`): scan all 16 keys (see `fx0aLoop`), then
`keypad[v[x]] = false` with the post-loop `v[x]` (bounds-checked: `v[x]` may
exceed 15). -/
def _fx0a (x : Nat) (s : VM) : Except Err VM :=
  let t := fx0aLoop s.keypad x s 16
  match writeKey t.keypad (t.v x) false with
  | .error e => .error e
  | .ok kp => .ok { t with keypad := kp }

/-- Opcode `Fx15` (`fn _fx15`): `delay = v[x]; pc += 2`. -/
def _fx15 (x : Nat) (s : VM) : Except Err VM :=
  .ok { s with delay := s.v x, pc := (s.pc + 2) % 65536 }

/-- Opcode `Fx18` (`fn _fx18`): `sound = v[x]; pc += 2`. -/
def _fx18 (x : Nat) (s : VM) : Except Err VM :=
  .ok { s with sound := s.v x, pc := (s.pc + 2) % 65536 }

/-- Opcode `Fx1E` (`fn _fx1e`): `i += v[x]` (u16 wrap); `pc += 2`. -/
def _fx1e (x : Nat) (s : VM) : Except Err VM :=
  .ok { s with i := (s.i + s.v x) % 65536, pc := (s.pc + 2) % 65536 }

/-- Opcode `Fx29` (`fn _fx29`): `i = (v[x] * 5) as u16` where the multiply is
performed in `u8` (wraps mod 256); `pc += 2`. -/
def _fx29 (x : Nat) (s : VM) : Except Err VM :=
  .ok { s with i := (s.v x * 5) % 256, pc := (s.pc + 2) % 65536 }

/-- Opcode `Fx33` (`fn _fx33`): BCD of `v[x]` into `memory[i]`, `memory[i+1]`,
`memory[i+2]` (u16 index arithmetic, bounds-checked writes); `pc += 2`. -/
def _fx33 (x : Nat) (s : VM) : Except Err VM :=
  match writeArr s.memory 4096 s.i (s.v x / 100) with
  | .error e => .error e
  | .ok m1 =>
    match writeArr m1 4096 ((s.i + 1) % 65536) ((s.v x / 10) % 10) with
    | .error e => .error e
    | .ok m2 =>
      match writeArr m2 4096 ((s.i + 2) % 65536) ((s.v x % 100) % 10) with
      | .error e => .error e
      | .ok m3 => .ok { s with memory := m3, pc := (s.pc + 2) % 65536 }

/-- Store loop of `fn _fx55` (`for register_index in 0..x`): `k` iterations
writing `memory[(i + register_index) as u16] = v[register_index]`. -/
def fx55Loop (v : Nat → Nat) (idx0 : Nat) (mem : Nat → Nat) : Nat → Except Err (Nat → Nat)
  | 0 => .ok mem
  | k + 1 =>
    match fx55Loop v idx0 mem k with
    | .error e => .error e
    | .ok m => writeArr m 4096 ((idx0 + k) % 65536) (v k)

/-- Opcode `Fx55` (`fn _fx55`): store `v[0..x)` (exclusive of `x`) into
`memory[i..]`; `pc += 2`. -/
def _fx55 (x : Nat) (s : VM) : Except Err VM :=
  match fx55Loop s.v s.i s.memory x with
  | .error e => .error e
  | .ok m => .ok { s with memory := m, pc := (s.pc + 2) % 65536 }

/-- Load loop of `fn _fx65` (`for register_index in 0..x`). -/
def fx65Loop (mem : Nat → Nat) (idx0 : Nat) (v : Nat → Nat) : Nat → Except Err (Nat → Nat)
  | 0 => .ok v
  | k + 1 =>
    match fx65Loop mem idx0 v k with
    | .error e => .error e
    | .ok vv =>
      match readArr mem 4096 ((idx0 + k) % 65536) with
      | .error e => .error e
      | .ok b => .ok (updArr vv k b)

/-- Opcode `Fx65` (`fn _fx65`): load `v[0..x)` (exclusive of `x`) from
`memory[i..]`; `pc += 2`. -/
def _fx65 (x : Nat) (s : VM) : Except Err VM :=
  match fx65Loop s.memory s.i s.v x with
  | .error e => .error e
  | .ok vv => .ok { s with v := vv, pc := (s.pc + 2) % 65536 }

/-- `fn parse_op_code`: field extraction and the two-level dispatch match.
`rnd` is the external random byte consumed by family `0xC`.  The `_ => {}`
arms of families `0x0`, `0x8`, `0xE` return the state unchanged; the `_ =>
panic!` arms of family `0xF` and of the top-level match are errors. -/
def parse_op_code (rnd : Nat) (vm : VM) : Except Err VM :=
  let x := (vm.op &&& 0x0F00) >>> 8
  let y := (vm.op &&& 0x00F0) >>> 4
  let nn := vm.op &&& 0x00FF
  let nnn := vm.op &&& 0x0FFF
  let fam := vm.op &&& 0xF000
  if fam = 0x0000 then
    if nn = 0x00E0 then _0x00e0 vm
    else if nn = 0x00EE then _0x00ee vm
    else .ok vm
  else if fam = 0x1000 then _1nnn nnn vm
  else if fam = 0x2000 then _2nnn nnn vm
  else if fam = 0x3000 then _3xkk x nn vm
  else if fam = 0x4000 then _4xkk x nn vm
  else if fam = 0x5000 then _5xy0 x y vm
  else if fam = 0x6000 then _6xkk x nn vm
  else if fam = 0x7000 then _7xkk x nn vm
  else if fam = 0x8000 then
    if vm.op &&& 0x000F = 0x0 then _8xy0 x y vm
    else if vm.op &&& 0x000F = 0x1 then _8xy1 x y vm
    else if vm.op &&& 0x000F = 0x2 then _8xy2 x y vm
    else if vm.op &&& 0x000F = 0x3 then _8xy3 x y vm
    else if vm.op &&& 0x000F = 0x4 then _8xy4 x y vm
    else if vm.op &&& 0x000F = 0x5 then _8xy5 x y vm
    else if vm.op &&& 0x000F = 0x6 then _8xy6 x y vm
    else if vm.op &&& 0x000F = 0x7 then _8xy7 x y vm
    else if vm.op &&& 0x000F = 0x8 then _8xye x y vm
    else .ok vm
  else if fam = 0x9000 then _9xy0 x y vm
  else if fam = 0xA000 then _annn nnn vm
  else if fam = 0xB000 then _bnnn nnn vm
  else if fam = 0xC000 then _cxkk rnd x nn vm
  else if fam = 0xD000 then _dxyn x y vm
  else if fam = 0xE000 then
    if nn = 0x009E then _ex9e x vm
    else if nn = 0x00A1 then _exa1 x vm
    else .ok vm
  else if fam = 0xF000 then
    if nn = 0x00A1 then _exa1 x vm
    else if nn = 0x0007 then _fx07 x vm
    else if nn = 0x000A then _fx0a x vm
    else if nn = 0x0015 then _fx15 x vm
    else if nn = 0x0018 then _fx18 x vm
    else if nn = 0x001E then _fx1e x vm
    else if nn = 0x0029 then _fx29 x vm
    else if nn = 0x0033 then _fx33 x vm
    else if nn = 0x0055 then _fx55 x vm
    else if nn = 0x0065 then _fx65 x vm
    else .error (.unknownOpcode vm.op)
  else .error (.unknownOpcode vm.op)

/-- `fn emulate_cycle`: big-endian fetch of the 16-bit instruction word from
`memory[pc]`, `memory[pc + 1]` (u16 increment, bounds-checked reads), then
dispatch. -/
def emulate_cycle (rnd : Nat) (s : VM) : Except Err VM :=
  match readArr s.memory 4096 s.pc with
  | .error e => .error e
  | .ok hi =>
    match readArr s.memory 4096 ((s.pc + 1) % 65536) with
    | .error e => .error e
    | .ok lo => parse_op_code rnd { s with op := (hi <<< 8) ||| lo }

/-- `const FONT_BITMAP` from `src/main.rs`: the 80-byte glyph table. -/
def FONT_BITMAP : List Nat :=
  [0xF0, 0x90, 0x90, 0x90, 0xF0,
   0x20, 0x60, 0x20, 0x20, 0x70,
   0xF0, 0x10, 0xF0, 0x80, 0xF0,
   0xF0, 0x10, 0xF0, 0x10, 0xF0,
   0x90, 0x90, 0xF0, 0x10, 0x10,
   0xF0, 0x80, 0xF0, 0x10, 0xF0,
   0xF0, 0x80, 0xF0, 0x90, 0xF0,
   0xF0, 0x10, 0x20, 0x40, 0x40,
   0xF0, 0x90, 0xF0, 0x90, 0xF0,
   0xF0, 0x90, 0xF0, 0x10, 0xF0,
   0xF0, 0x90, 0xF0, 0x90, 0x90,
   0xE0, 0x90, 0xE0, 0x90, 0xE0,
   0xF0, 0x80, 0x80, 0x80, 0xF0,
   0xE0, 0x90, 0x90, 0x90, 0xE0,
   0xF0, 0x80, 0xF0, 0x80, 0xF0,
   0xF0, 0x80, 0xF0, 0x80, 0x80]

/-- `VM::new`: all fields zeroed, `pc = 0x200`. -/
def newVM : VM :=
  { op := 0, v := fun _ => 0, i := 0, pc := 0x200, stack := fun _ => 0, sp := 0,
    delay := 0, sound := 0, memory := fun _ => 0, display := fun _ => 0,
    drawflag := false, keypad := fun _ => false }

/-- `VM::init_font_set`: copy the 80 glyph bytes into `memory[0..80)`. -/
def init_font_set (s : VM) : VM :=
  { s with memory := fun j => if j < 80 then FONT_BITMAP.getD j 0 else s.memory j }

/-- The startup state of the interpreter: `VM::new` followed by
`init_font_set` (glyph table loaded, `pc = 0x200`). -/
def initVM : VM := init_font_set newVM

/-- `VM::load_rom` (file I/O stripped to the byte list it produces): fails if
the ROM exceeds `4096 - 0x200` bytes, otherwise copies it to
`memory[0x200..0x200+len)`. -/
def load_rom (rom : List Nat) (s : VM) : Except Err VM :=
  if 4096 - 0x200 < rom.length then .error (.romTooLarge rom.length)
  else .ok { s with memory := fun j =>
    if 0x200 ≤ j ∧ j < 0x200 + rom.length then rom.getD (j - 0x200) 0 else s.memory j }

/-- States reachable by the program: start from `initVM`, load some ROM, then
run any number of fetch-decode-execute cycles (with arbitrary random bytes). -/
inductive Reachable : VM → Prop where
  | load : ∀ (rom : List Nat) (s : VM), load_rom rom initVM = .ok s → Reachable s
  | step : ∀ (rnd : Nat) (s t : VM), Reachable s → emulate_cycle rnd s = .ok t → Reachable t

/-- Framebuffer cell hit by bit column `c` of a one-row sprite drawn at
`(X, Y)`: row `Y % 32`, column `(X + c) % 64` (torus wraparound). -/
def spriteTarget (X Y c : Nat) : Nat := (Y % 32) * 64 + (X + c) % 64

/-- Concrete state for C1: registers 0 and 1 (distinct indices) both hold 7. -/
def c1State : VM := { newVM with v := fun _ => 7 }

/-- Concrete states for C2: family-8 opcodes with low nibble 0x8 and 0xE. -/
def c2a : VM := { newVM with op := 0x8128 }

/-- Second concrete state for C2 (low nibble 0xE). -/
def c2b : VM := { newVM with op := 0x812E }

/-- Concrete state for C3's counterexample: family 0x0, unknown sub-opcode 0xFF. -/
def c3State : VM := { newVM with op := 0x00FF }

/-- Concrete states for C3's witness. -/
def c3w : VM := { newVM with op := 0xF0FF }

/-- Family-0 unknown sub-opcode state for C3's witness. -/
def c3x : VM := { newVM with op := 0x0001 }

/-- Family-8 unknown sub-opcode state for C3's witness. -/
def c3y : VM := { newVM with op := 0x8009 }

/-- Family-E unknown sub-opcode state for C3's witness. -/
def c3z : VM := { newVM with op := 0xE0FF }

/-- Concrete state for C4: keys 0 and 1 pressed, `v[0] = 0`, `pc = 0x300`. -/
def c4State : VM := { newVM with keypad := fun j => j = 0 ∨ j = 1, pc := 0x300 }

/-- Concrete state for C5's counterexample: `v[0] = 2`, `v[1] = 0x81`. -/
def c5State : VM := { newVM with v := fun j => if j = 0 then 2 else if j = 1 then 0x81 else 0 }

/-- Concrete state for C5's witness: `v[1] = 5`, every other register 9. -/
def c5w : VM := { newVM with v := fun j => if j = 1 then 5 else 9 }

/-- Concrete state for C6's counterexample: `sp = 0`, all stack slots 0x300. -/
def c6State : VM := { newVM with stack := fun _ => 0x300 }

/-- Concrete states for C6's witness. -/
def c6w0 : VM := { newVM with stack := fun _ => 0x400 }

/-- Call-at-top state for C6's witness (`sp = 15`). -/
def c6w15 : VM := { newVM with sp := 15 }

/-- Mid-stack return state for C6's witness (`sp = 3`). -/
def c6w3 : VM := { newVM with sp := 3, stack := fun _ => 0x500 }

/-- Mid-stack call state for C6's witness (`sp = 4`). -/
def c6w4 : VM := { newVM with sp := 4, pc := 0x333 }

/-- Concrete state for C7's counterexample: lit framebuffer, `drawflag = false`. -/
def c7State : VM := { newVM with display := fun _ => 1 }

/-- ROM for C8's counterexample: `A000` (set `i = 0`), `F033` (BCD of `v[0]`
to `memory[0..3)`), which overwrites glyph bytes. -/
def rom8 : List Nat := [0xA0, 0x00, 0xF0, 0x33]

/-- State after loading `rom8` into the startup state. -/
def s8a : VM := (load_rom rom8 initVM).toOption.getD newVM

/-- State after one cycle of `rom8` (executes `A000`). -/
def s8b : VM := (emulate_cycle 0 s8a).toOption.getD newVM

/-- State after two cycles of `rom8` (executes `F033` with `i = 0`). -/
def s8c : VM := (emulate_cycle 0 s8b).toOption.getD newVM

/-- Concrete state for C8's witness: `i = 0x100`, a jump instruction at `pc`. -/
def c8w : VM := { newVM with i := 0x100,
                             memory := fun j => if j < 80 then 7
                               else if j = 0x200 then 0x12
                               else if j = 0x201 then 0x34 else 0 }

/-- Concrete state for C9's counterexample: height-1 draw op, sprite byte
0xFF at `memory[0x300]`, and the 8 target cells of row 0 already lit. -/
def c9cex : VM := { newVM with op := 0xD011, i := 0x300,
                               memory := fun j => if j = 0x300 then 255 else 0,
                               display := fun j => if j < 8 then 1 else 0 }

/-- Concrete state for C9's witness: draw position `(3, 2)`, clear screen. -/
def c9w : VM := { newVM with op := 0xD011, i := 0x300,
                             v := fun j => if j = 0 then 3 else if j = 1 then 2 else 0,
                             memory := fun j => if j = 0x300 then 255 else 0 }

/-- Concrete state for C10's witness: `v[0] = 200`, `v[1] = 100`. -/
def c10a : VM := { newVM with v := fun j => if j = 0 then 200 else if j = 1 then 100 else 0 }

/-- Concrete state for C10's witness: `v[0] = 10`, `v[1] = 3`. -/
def c10b : VM := { newVM with v := fun j => if j = 0 then 10 else if j = 1 then 3 else 0 }

/-- Concrete state for C10's witness: `v[0] = 3`, `v[1] = 10`. -/
def c10c : VM := { newVM with v := fun j => if j = 0 then 3 else if j = 1 then 10 else 0 }

/-- C1: the claim says the `5xy0` handler skips (PC + 4) exactly when the
register VALUES `v[x]` and `v[y]` are equal.  Evaluating the code at the
failing input: with distinct indices 0 and 1 whose register values are both
7, the handler advances PC by only 2 (no skip) — the source compares the
indices `x == y`, not the register values. -/
theorem C1_skip_if_reg_equal_compares_indices :
    c1State.v 0 = c1State.v 1 ∧
    (_5xy0 0 1 c1State).toOption.map (fun t => t.pc) = some 0x202 := by
  decide

/-- C2: in the family-0x8 second-level match, low nibble 0x8 is routed to the
SHL handler `_8xye`, and low nibbles 0x9 through 0xF (including 0xE) are
routed to no handler at all, returning the state unchanged. -/
theorem C2_family8_low_nibble_routing (rnd : Nat) (s : VM)
    (hfam : s.op &&& 0xF000 = 0x8000) :
    (s.op &&& 0x000F = 0x8 →
      parse_op_code rnd s = _8xye ((s.op &&& 0x0F00) >>> 8) ((s.op &&& 0x00F0) >>> 4) s) ∧
    (9 ≤ s.op &&& 0x000F → parse_op_code rnd s = .ok s) := by
  constructor
  · intro h8
    simp [parse_op_code, hfam, h8]
  · intro h9
    have h0 : s.op &&& 0x000F ≠ 0x0 := by omega
    have h1 : s.op &&& 0x000F ≠ 0x1 := by omega
    have h2 : s.op &&& 0x000F ≠ 0x2 := by omega
    have h3 : s.op &&& 0x000F ≠ 0x3 := by omega
    have h4 : s.op &&& 0x000F ≠ 0x4 := by omega
    have h5 : s.op &&& 0x000F ≠ 0x5 := by omega
    have h6 : s.op &&& 0x000F ≠ 0x6 := by omega
    have h7 : s.op &&& 0x000F ≠ 0x7 := by omega
    have h8 : s.op &&& 0x000F ≠ 0x8 := by omega
    simp [parse_op_code, hfam, h0, h1, h2, h3, h4, h5, h6, h7, h8]

/-- Witness for C2 at the concrete opcodes 0x8128 (routed to `_8xye 1 2`) and
0x812E (no handler, state unchanged). -/
theorem C2_family8_low_nibble_routing_witness :
    parse_op_code 0 c2a = _8xye 1 2 c2a ∧ parse_op_code 0 c2b = .ok c2b :=
  ⟨(C2_family8_low_nibble_routing 0 c2a (by decide)).1 (by decide),
   (C2_family8_low_nibble_routing 0 c2b (by decide)).2 (by decide)⟩

/-- C3's counterexample: opcode 0x00FF is an unknown sub-opcode of the
recognized family 0x0, yet `parse_op_code` completes normally with the state
unchanged instead of failing with a decode error — refuting the claim that
every unknown sub-opcode of a recognized family is a fatal decode error. -/
theorem C3_unknown_sub_opcode_silently_ignored :
    c3State.op = 0x00FF ∧ parse_op_code 0 c3State = .ok c3State :=
  ⟨rfl, rfl⟩

/-- C3 (amended): only family 0xF turns an unknown sub-opcode into a fatal
decode error carrying the opcode; unknown sub-opcodes of families 0x0, 0x8
and 0xE are silently ignored (state returned unchanged), and every top nibble
is matched, so no unrecognized top-level family exists. -/
theorem C3_decode_errors_only_familyF (rnd : Nat) (s : VM) :
    (s.op &&& 0xF000 = 0xF000 →
      s.op &&& 0x00FF ≠ 0xA1 → s.op &&& 0x00FF ≠ 0x07 → s.op &&& 0x00FF ≠ 0x0A →
      s.op &&& 0x00FF ≠ 0x15 → s.op &&& 0x00FF ≠ 0x18 → s.op &&& 0x00FF ≠ 0x1E →
      s.op &&& 0x00FF ≠ 0x29 → s.op &&& 0x00FF ≠ 0x33 → s.op &&& 0x00FF ≠ 0x55 →
      s.op &&& 0x00FF ≠ 0x65 →
      parse_op_code rnd s = .error (.unknownOpcode s.op)) ∧
    (s.op &&& 0xF000 = 0x0000 → s.op &&& 0x00FF ≠ 0xE0 → s.op &&& 0x00FF ≠ 0xEE →
      parse_op_code rnd s = .ok s) ∧
    (s.op &&& 0xF000 = 0x8000 → 9 ≤ s.op &&& 0x000F → parse_op_code rnd s = .ok s) ∧
    (s.op &&& 0xF000 = 0xE000 → s.op &&& 0x00FF ≠ 0x9E → s.op &&& 0x00FF ≠ 0xA1 →
      parse_op_code rnd s = .ok s) := by
  refine ⟨?_, ?_, ?_, ?_⟩
  · intro hfam hA1 h07 h0A h15 h18 h1E h29 h33 h55 h65
    simp [parse_op_code, hfam, hA1, h07, h0A, h15, h18, h1E, h29, h33, h55, h65]
  · intro hfam hE0 hEE
    simp [parse_op_code, hfam, hE0, hEE]
  · intro hfam h9
    exact (C2_family8_low_nibble_routing rnd s hfam).2 h9
  · intro hfam h9E hA1
    simp [parse_op_code, hfam, h9E, hA1]

/-- Witness for C3 (amended) at concrete opcodes 0xF0FF (fatal decode error),
0x0001, 0x8009 and 0xE0FF (all silently ignored). -/
theorem C3_decode_errors_only_familyF_witness :
    parse_op_code 0 c3w = .error (.unknownOpcode 0xF0FF) ∧
    parse_op_code 0 c3x = .ok c3x ∧
    parse_op_code 0 c3y = .ok c3y ∧
    parse_op_code 0 c3z = .ok c3z :=
  ⟨(C3_decode_errors_only_familyF 0 c3w).1 (by decide) (by decide) (by decide)
      (by decide) (by decide) (by decide) (by decide) (by decide) (by decide)
      (by decide) (by decide),
   (C3_decode_errors_only_familyF 0 c3x).2.1 (by decide) (by decide) (by decide),
   (C3_decode_errors_only_familyF 0 c3y).2.2.1 (by decide) (by decide),
   (C3_decode_errors_only_familyF 0 c3z).2.2.2 (by decide) (by decide) (by decide)⟩

/-- C4: the claim says the wait-for-key handler advances PC by exactly 2 when
one or more keys are pressed.  Evaluating the code at the failing input: with
keys 0 and 1 both pressed and `v[0] = 0`, the handler advances PC by 4 (2 per
pressed key — the early `return` is commented out in the source) and then
clears `keypad[v[x]] = keypad[1]`. -/
theorem C4_wait_for_key_advances_per_pressed_key :
    c4State.keypad 0 = true ∧ c4State.keypad 1 = true ∧
    (_fx0a 0 c4State).toOption.map (fun t => (t.pc, t.v 0, t.keypad 0, t.keypad 1)) =
      some (0x304, 1, true, false) := by
  decide

/-- C5's counterexample: SHR with `x = y = 0` on `v[0] = 2` sets `v[0xF] = 1`
although the least significant bit of the original `v[y] = 2` is 0 (the flag
is read after `v[x]` is overwritten); SHL with distinct registers on
`v[1] = 0x81` sets `v[0xF] = 0x80 = 128`, not 1. -/
theorem C5_shift_flag_counterexample :
    c5State.v 0 = 2 ∧
    (_8xy6 0 0 c5State).toOption.map (fun t => (t.v 0, t.v 15)) = some (1, 1) ∧
    c5State.v 1 = 0x81 ∧
    (_8xye 2 1 c5State).toOption.map (fun t => (t.v 2, t.v 15)) = some (2, 128) := by
  decide

/-- C5 (amended): when `x`, `y`, `0xF` are pairwise distinct, SHR writes
`v[y] >> 1` to `v[x]` and the original low bit of `v[y]` (as 0 or 1) to
`v[0xF]`, and SHL writes `v[y] << 1 (mod 256)` to `v[x]` but sets `v[0xF]` to
`v[y] & 0x80`, i.e. 0 or 0x80 rather than 0 or 1; when `x = y` the flag is
computed from the already-shifted value (bit 1 of the original for SHR). -/
theorem C5_shift_semantics (s : VM) (x y : Nat) (hxy : x ≠ y)
    (hx15 : x ≠ 15) (hy15 : y ≠ 15) :
    (∃ t, _8xy6 x y s = .ok t ∧ t.v x = s.v y / 2 ∧ t.v 15 = s.v y % 2 ∧
      t.pc = (s.pc + 2) % 65536) ∧
    (∃ t, _8xye x y s = .ok t ∧ t.v x = (s.v y * 2) % 256 ∧ t.v 15 = s.v y &&& 0x80 ∧
      t.pc = (s.pc + 2) % 65536) ∧
    (∃ t, _8xy6 x x s = .ok t ∧ t.v x = s.v x / 2 ∧ t.v 15 = (s.v x / 2) % 2) ∧
    (∃ t, _8xye x x s = .ok t ∧ t.v x = (s.v x * 2) % 256 ∧
      t.v 15 = ((s.v x * 2) % 256) &&& 0x80) := by
  have hyx : y ≠ x := Ne.symm hxy
  refine ⟨⟨_, rfl, ?_, ?_, rfl⟩, ⟨_, rfl, ?_, ?_, rfl⟩, ⟨_, rfl, ?_, ?_⟩, ⟨_, rfl, ?_, ?_⟩⟩ <;>
    simp [_8xy6, _8xye, updArr, hxy, hyx, hx15, hy15, Nat.shiftRight_one,
      Nat.and_one_is_mod, Nat.shiftLeft_eq, Nat.pow_one]

/-- Witness for C5 (amended) at `x = 0`, `y = 1`, `v[1] = 5`. -/
theorem C5_shift_semantics_witness :
    ∃ t, _8xy6 0 1 c5w = .ok t ∧ t.v 0 = c5w.v 1 / 2 ∧ t.v 15 = c5w.v 1 % 2 ∧
      t.pc = (c5w.pc + 2) % 65536 :=
  (C5_shift_semantics c5w 0 1 (by decide) (by decide) (by decide)).1

/-- C6's counterexample: with `sp = 0` the return handler completes normally
(no explicit error) and wraps the stack pointer to 65535, violating both the
claimed invariant `0 ≤ sp < 16` and the claimed explicit error at `sp = 0`. -/
theorem C6_return_at_sp0_wraps :
    c6State.sp = 0 ∧
    (_0x00ee c6State).toOption.map (fun t => (t.sp, t.pc)) = some (65535, 0x302) := by
  decide

/-- C6 (amended): the code does not guard the stack pointer. A return at
`sp = 0` succeeds and wraps `sp` to 65535 (u16 underflow) instead of raising
an explicit error; a call at `sp = 15` fails only with the index-out-of-bounds
panic of `stack[16]` (there is no guarded check); returns at `1 ≤ sp ≤ 15`
decrement `sp` and calls at `sp ≤ 14` increment it, pushing `pc`. -/
theorem C6_stack_pointer_behaviour (s : VM) :
    (s.sp = 0 → ∃ t, _0x00ee s = .ok t ∧ t.sp = 65535 ∧
      t.pc = (s.stack 0 + 2) % 65536) ∧
    (s.sp = 15 → ∀ nnn, _2nnn nnn s = .error (.indexOutOfBounds 16)) ∧
    (1 ≤ s.sp → s.sp ≤ 15 → ∃ t, _0x00ee s = .ok t ∧ t.sp = s.sp - 1 ∧
      t.pc = (s.stack s.sp + 2) % 65536) ∧
    (∀ nnn, s.sp ≤ 14 → ∃ t, _2nnn nnn s = .ok t ∧ t.sp = s.sp + 1 ∧
      t.stack (s.sp + 1) = s.pc ∧ t.pc = nnn) := by
  refine ⟨?_, ?_, ?_, ?_⟩
  · intro hsp
    simp only [_0x00ee, readArr, hsp]
    norm_num
  · intro hsp nnn
    simp only [_2nnn, writeArr, hsp]
    norm_num
  · intro h1 h15
    have hlt : s.sp < 16 := by omega
    simp only [_0x00ee, readArr, if_pos hlt]
    refine ⟨_, rfl, ?_, rfl⟩
    show (s.sp + 65535) % 65536 = s.sp - 1
    omega
  · intro nnn hsp
    have h1 : (s.sp + 1) % 65536 = s.sp + 1 := Nat.mod_eq_of_lt (by omega)
    have hlt : (s.sp + 1) % 65536 < 16 := by omega
    simp only [_2nnn, writeArr, if_pos hlt]
    refine ⟨_, rfl, by simpa using h1, ?_, rfl⟩
    simp [updArr, h1]

/-- Witness for C6 (amended) at `sp = 0` (return), `sp = 15` (call),
`sp = 3` (return) and `sp = 4` (call). -/
theorem C6_stack_pointer_behaviour_witness :
    (∃ t, _0x00ee c6w0 = .ok t ∧ t.sp = 65535 ∧ t.pc = (c6w0.stack 0 + 2) % 65536) ∧
    (_2nnn 0x400 c6w15 = .error (.indexOutOfBounds 16)) ∧
    (∃ t, _0x00ee c6w3 = .ok t ∧ t.sp = 2 ∧ t.pc = (c6w3.stack 3 + 2) % 65536) ∧
    (∃ t, _2nnn 0x456 c6w4 = .ok t ∧ t.sp = 5 ∧ t.stack 5 = c6w4.pc ∧ t.pc = 0x456) :=
  ⟨(C6_stack_pointer_behaviour c6w0).1 rfl,
   (C6_stack_pointer_behaviour c6w15).2.1 rfl 0x400,
   (C6_stack_pointer_behaviour c6w3).2.2.1 (by decide) (by decide),
   (C6_stack_pointer_behaviour c6w4).2.2.2 0x456 (by decide)⟩

/-- C7's counterexample: the clear-screen handler leaves `drawflag` at
`false` — it does not set the redraw flag, refuting the claim that it does
("like every operation that mutates the framebuffer"). -/
theorem C7_clear_screen_leaves_drawflag :
    c7State.drawflag = false ∧ c7State.display 0 = 1 ∧
    (_0x00e0 c7State).toOption.map (fun t => (t.drawflag, t.display 0)) =
      some (false, 0) := by
  decide

/-- C7 (amended): the clear-screen opcode zeroes all framebuffer cells,
advances PC by 2, leaves every register (general registers, index, stack,
stack pointer, timers), the memory, the keypad — and also the redraw flag —
unchanged; only the draw-sprite handler sets the redraw flag. -/
theorem C7_clear_screen_effect (s : VM) :
    ∃ t, _0x00e0 s = .ok t ∧ (∀ j : Nat, t.display j = 0) ∧
      t.pc = (s.pc + 2) % 65536 ∧ t.v = s.v ∧ t.i = s.i ∧ t.stack = s.stack ∧
      t.sp = s.sp ∧ t.delay = s.delay ∧ t.sound = s.sound ∧ t.memory = s.memory ∧
      t.keypad = s.keypad ∧ t.drawflag = s.drawflag ∧ t.op = s.op :=
  ⟨_, rfl, fun _ => rfl, rfl, rfl, rfl, rfl, rfl, rfl, rfl, rfl, rfl, rfl, rfl⟩

/-- C10: register-to-register ADD wraps mod 256 and sets `v[0xF]` to 1 exactly
on unsigned overflow; SUB sets `v[0xF]` to 1 exactly when no borrow occurs:
`v0 = 200, v1 = 100` ADD gives `v0 = 44, vF = 1`; `v0 = 10, v1 = 3` SUB gives
`v0 = 7, vF = 1`; `v0 = 3, v1 = 10` SUB gives `v0 = 249, vF = 0`; PC advances
by 2 in each case. -/
theorem C10_add_sub_flags (s : VM) :
    (s.v 0 = 200 → s.v 1 = 100 → ∃ t, _8xy4 0 1 s = .ok t ∧ t.v 0 = 44 ∧
      t.v 15 = 1 ∧ t.pc = (s.pc + 2) % 65536) ∧
    (s.v 0 = 10 → s.v 1 = 3 → ∃ t, _8xy5 0 1 s = .ok t ∧ t.v 0 = 7 ∧
      t.v 15 = 1 ∧ t.pc = (s.pc + 2) % 65536) ∧
    (s.v 0 = 3 → s.v 1 = 10 → ∃ t, _8xy5 0 1 s = .ok t ∧ t.v 0 = 249 ∧
      t.v 15 = 0 ∧ t.pc = (s.pc + 2) % 65536) := by
  refine ⟨fun h0 h1 => ⟨_, rfl, ?_, ?_, rfl⟩, fun h0 h1 => ⟨_, rfl, ?_, ?_, rfl⟩,
    fun h0 h1 => ⟨_, rfl, ?_, ?_, rfl⟩⟩ <;>
      simp [_8xy4, _8xy5, updArr, h0, h1]

/-- A successful bounds-checked write implies the index was in range and the
result is the pointwise update. -/
theorem writeArr_ok {a : Nat → Nat} {len idx val m : _} (h : writeArr a len idx val = .ok m) :
    idx < len ∧ m = updArr a idx val := by
  simp only [writeArr] at h
  split at h
  · exact ⟨by assumption, by injection h with h; exact h.symm⟩
  · simp at h

/-- The clear-screen handler does not touch interpreter memory. -/
theorem memPres_0x00e0 {s t : VM} (h : _0x00e0 s = .ok t) : t.memory = s.memory := by
  simp only [_0x00e0] at h
  injection h with h; subst h; rfl

/-- The return handler does not touch interpreter memory. -/
theorem memPres_0x00ee {s t : VM} (h : _0x00ee s = .ok t) : t.memory = s.memory := by
  simp only [_0x00ee] at h
  split at h
  · simp at h
  · injection h with h; subst h; rfl

/-- The jump handler does not touch interpreter memory. -/
theorem memPres_1nnn {nnn : Nat} {s t : VM} (h : _1nnn nnn s = .ok t) : t.memory = s.memory := by
  simp only [_1nnn] at h
  injection h with h; subst h; rfl

/-- The call handler writes the stack, not interpreter memory. -/
theorem memPres_2nnn {nnn : Nat} {s t : VM} (h : _2nnn nnn s = .ok t) : t.memory = s.memory := by
  simp only [_2nnn] at h
  split at h
  · simp at h
  · injection h with h; subst h; rfl

/-- The `3xkk` skip handler does not touch interpreter memory. -/
theorem memPres_3xkk {x kk : Nat} {s t : VM} (h : _3xkk x kk s = .ok t) : t.memory = s.memory := by
  simp only [_3xkk] at h
  split at h <;> (injection h with h; subst h; rfl)

/-- The `4xkk` skip handler does not touch interpreter memory. -/
theorem memPres_4xkk {x kk : Nat} {s t : VM} (h : _4xkk x kk s = .ok t) : t.memory = s.memory := by
  simp only [_4xkk] at h
  split at h <;> (injection h with h; subst h; rfl)

/-- The `5xy0` skip handler does not touch interpreter memory. -/
theorem memPres_5xy0 {x y : Nat} {s t : VM} (h : _5xy0 x y s = .ok t) : t.memory = s.memory := by
  simp only [_5xy0] at h
  split at h <;> (injection h with h; subst h; rfl)

/-- The load-immediate handler does not touch interpreter memory. -/
theorem memPres_6xkk {x kk : Nat} {s t : VM} (h : _6xkk x kk s = .ok t) : t.memory = s.memory := by
  simp only [_6xkk] at h
  injection h with h; subst h; rfl

/-- The add-immediate handler does not touch interpreter memory. -/
theorem memPres_7xkk {x kk : Nat} {s t : VM} (h : _7xkk x kk s = .ok t) : t.memory = s.memory := by
  simp only [_7xkk] at h
  injection h with h; subst h; rfl

/-- The register-assign handler does not touch interpreter memory. -/
theorem memPres_8xy0 {x y : Nat} {s t : VM} (h : _8xy0 x y s = .ok t) : t.memory = s.memory := by
  simp only [_8xy0] at h
  injection h with h; subst h; rfl

/-- The OR handler does not touch interpreter memory. -/
theorem memPres_8xy1 {x y : Nat} {s t : VM} (h : _8xy1 x y s = .ok t) : t.memory = s.memory := by
  simp only [_8xy1] at h
  injection h with h; subst h; rfl

/-- The AND handler does not touch interpreter memory. -/
theorem memPres_8xy2 {x y : Nat} {s t : VM} (h : _8xy2 x y s = .ok t) : t.memory = s.memory := by
  simp only [_8xy2] at h
  injection h with h; subst h; rfl

/-- The XOR handler does not touch interpreter memory. -/
theorem memPres_8xy3 {x y : Nat} {s t : VM} (h : _8xy3 x y s = .ok t) : t.memory = s.memory := by
  simp only [_8xy3] at h
  injection h with h; subst h; rfl

/-- The ADD handler does not touch interpreter memory. -/
theorem memPres_8xy4 {x y : Nat} {s t : VM} (h : _8xy4 x y s = .ok t) : t.memory = s.memory := by
  simp only [_8xy4] at h
  injection h with h; subst h; rfl

/-- The SUB handler does not touch interpreter memory. -/
theorem memPres_8xy5 {x y : Nat} {s t : VM} (h : _8xy5 x y s = .ok t) : t.memory = s.memory := by
  simp only [_8xy5] at h
  injection h with h; subst h; rfl

/-- The SHR handler does not touch interpreter memory. -/
theorem memPres_8xy6 {x y : Nat} {s t : VM} (h : _8xy6 x y s = .ok t) : t.memory = s.memory := by
  simp only [_8xy6] at h
  injection h with h; subst h; rfl

/-- The SUBN handler does not touch interpreter memory. -/
theorem memPres_8xy7 {x y : Nat} {s t : VM} (h : _8xy7 x y s = .ok t) : t.memory = s.memory := by
  simp only [_8xy7] at h
  injection h with h; subst h; rfl

/-- The SHL handler does not touch interpreter memory. -/
theorem memPres_8xye {x y : Nat} {s t : VM} (h : _8xye x y s = .ok t) : t.memory = s.memory := by
  simp only [_8xye] at h
  injection h with h; subst h; rfl

/-- The `9xy0` skip handler does not touch interpreter memory. -/
theorem memPres_9xy0 {x y : Nat} {s t : VM} (h : _9xy0 x y s = .ok t) : t.memory = s.memory := by
  simp only [_9xy0] at h
  split at h <;> (injection h with h; subst h; rfl)

/-- The set-index handler does not touch interpreter memory. -/
theorem memPres_annn {nnn : Nat} {s t : VM} (h : _annn nnn s = .ok t) : t.memory = s.memory := by
  simp only [_annn] at h
  injection h with h; subst h; rfl

/-- The jump-with-offset handler does not touch interpreter memory. -/
theorem memPres_bnnn {nnn : Nat} {s t : VM} (h : _bnnn nnn s = .ok t) : t.memory = s.memory := by
  simp only [_bnnn] at h
  injection h with h; subst h; rfl

/-- The random handler does not touch interpreter memory. -/
theorem memPres_cxkk {rnd x kk : Nat} {s t : VM} (h : _cxkk rnd x kk s = .ok t) :
    t.memory = s.memory := by
  simp only [_cxkk] at h
  injection h with h; subst h; rfl

/-- The draw-sprite handler writes the framebuffer, not interpreter memory. -/
theorem memPres_dxyn {x y : Nat} {s t : VM} (h : _dxyn x y s = .ok t) : t.memory = s.memory := by
  simp only [_dxyn] at h
  split at h
  · simp at h
  · injection h with h; subst h; rfl

/-- The skip-if-key-pressed handler does not touch interpreter memory. -/
theorem memPres_ex9e {x : Nat} {s t : VM} (h : _ex9e x s = .ok t) : t.memory = s.memory := by
  simp only [_ex9e] at h
  split at h
  · simp at h
  · split at h <;> (injection h with h; subst h; rfl)

/-- The skip-if-key-not-pressed handler does not touch interpreter memory. -/
theorem memPres_exa1 {x : Nat} {s t : VM} (h : _exa1 x s = .ok t) : t.memory = s.memory := by
  simp only [_exa1] at h
  split at h
  · simp at h
  · split at h
    · injection h with h; subst h; rfl
    · split at h
      · simp at h
      · injection h with h; subst h; rfl

/-- The read-delay handler does not touch interpreter memory. -/
theorem memPres_fx07 {x : Nat} {s t : VM} (h : _fx07 x s = .ok t) : t.memory = s.memory := by
  simp only [_fx07] at h
  injection h with h; subst h; rfl

/-- The wait-for-key scan loop does not touch interpreter memory. -/
theorem fx0aLoop_memory (keys : Nat → Bool) (x : Nat) (s : VM) :
    ∀ n, (fx0aLoop keys x s n).memory = s.memory := by
  intro n
  induction n with
  | zero => rfl
  | succ k ih =>
    simp only [fx0aLoop]
    split
    · exact ih
    · exact ih

/-- The wait-for-key handler does not touch interpreter memory. -/
theorem memPres_fx0a {x : Nat} {s t : VM} (h : _fx0a x s = .ok t) : t.memory = s.memory := by
  simp only [_fx0a] at h
  split at h
  · simp at h
  · injection h with h; subst h
    exact fx0aLoop_memory s.keypad x s 16

/-- The set-delay handler does not touch interpreter memory. -/
theorem memPres_fx15 {x : Nat} {s t : VM} (h : _fx15 x s = .ok t) : t.memory = s.memory := by
  simp only [_fx15] at h
  injection h with h; subst h; rfl

/-- The set-sound handler does not touch interpreter memory. -/
theorem memPres_fx18 {x : Nat} {s t : VM} (h : _fx18 x s = .ok t) : t.memory = s.memory := by
  simp only [_fx18] at h
  injection h with h; subst h; rfl

/-- The add-to-index handler does not touch interpreter memory. -/
theorem memPres_fx1e {x : Nat} {s t : VM} (h : _fx1e x s = .ok t) : t.memory = s.memory := by
  simp only [_fx1e] at h
  injection h with h; subst h; rfl

/-- The glyph-address handler does not touch interpreter memory. -/
theorem memPres_fx29 {x : Nat} {s t : VM} (h : _fx29 x s = .ok t) : t.memory = s.memory := by
  simp only [_fx29] at h
  injection h with h; subst h; rfl

/-- The load-registers handler writes registers, not interpreter memory. -/
theorem memPres_fx65 {x : Nat} {s t : VM} (h : _fx65 x s = .ok t) : t.memory = s.memory := by
  simp only [_fx65] at h
  split at h
  · simp at h
  · injection h with h; subst h; rfl

/-- A successful store-BCD step with `i ≥ 80` leaves the glyph bytes
`memory[0..80)` unchanged (success forces `i < 4096`, so the three u16 index
computations do not wrap). -/
theorem fx33_glyphs {x : Nat} {s t : VM} (h : _fx33 x s = .ok t) (hi : 80 ≤ s.i) :
    ∀ j, j < 80 → t.memory j = s.memory j := by
  intro j hj
  simp only [_fx33] at h
  split at h
  · simp at h
  next m1 heq1 =>
    split at h
    · simp at h
    next m2 heq2 =>
      split at h
      · simp at h
      next m3 heq3 =>
        injection h with h; subst h
        obtain ⟨hb1, hm1⟩ := writeArr_ok heq1
        obtain ⟨hb2, hm2⟩ := writeArr_ok heq2
        obtain ⟨hb3, hm3⟩ := writeArr_ok heq3
        subst hm1; subst hm2; subst hm3
        have e1 : (s.i + 1) % 65536 = s.i + 1 := Nat.mod_eq_of_lt (by omega)
        have e2 : (s.i + 2) % 65536 = s.i + 2 := Nat.mod_eq_of_lt (by omega)
        show updArr _ ((s.i + 2) % 65536) _ j = s.memory j
        simp only [updArr, e1, e2]
        rw [if_neg (by omega), if_neg (by omega), if_neg (by omega)]

/-- Every write index touched by a successful store-registers loop was in
bounds (every executed iteration's bounds check passed). -/
theorem fx55Loop_ok_mono {v mem : Nat → Nat} {idx0 : Nat} :
    ∀ k, ∀ m : Nat → Nat, fx55Loop v idx0 mem k = .ok m →
      ∀ n, n < k → (idx0 + n) % 65536 < 4096 := by
  intro k
  induction k with
  | zero => intro m _ n hn; omega
  | succ kk ih =>
    intro m h n hn
    simp only [fx55Loop] at h
    split at h
    · simp at h
    next mp heq =>
      rcases Nat.lt_or_ge n kk with h2 | h2
      · exact ih mp heq n h2
      · have hnk : n = kk := by omega
        subst hnk
        exact (writeArr_ok h).1

/-- A successful store-registers loop started at index `80 ≤ i < 65536` leaves
the glyph bytes unchanged. -/
theorem fx55Loop_glyphs {v : Nat → Nat} {idx0 : Nat} (hi : 80 ≤ idx0) (hi16 : idx0 < 65536) :
    ∀ k, ∀ mem m : Nat → Nat, fx55Loop v idx0 mem k = .ok m →
      ∀ j, j < 80 → m j = mem j := by
  intro k
  induction k with
  | zero =>
    intro mem m h j hj
    simp only [fx55Loop] at h
    injection h with h
    rw [← h]
  | succ n ih =>
    intro mem m h j hj
    simp only [fx55Loop] at h
    split at h
    · simp at h
    next mp heq =>
      obtain ⟨hb, hm⟩ := writeArr_ok h
      subst hm
      have hne : j ≠ (idx0 + n) % 65536 := by
        rcases Nat.lt_or_ge (idx0 + n) 65536 with hlt | hge
        · rw [Nat.mod_eq_of_lt hlt]; omega
        · exfalso
          rcases Nat.lt_or_ge idx0 4096 with h4 | h4
          · have hn' : 4096 - idx0 < n := by omega
            have hmono := fx55Loop_ok_mono n mp heq (4096 - idx0) hn'
            rw [Nat.mod_eq_of_lt (by omega)] at hmono
            omega
          · have hmono := fx55Loop_ok_mono n mp heq 0 (by omega)
            rw [Nat.mod_eq_of_lt (by omega)] at hmono
            omega
      simp only [updArr]
      rw [if_neg hne]
      exact ih mem mp heq j hj

/-- A successful store-registers step with `80 ≤ i < 65536` leaves the glyph
bytes unchanged. -/
theorem fx55_glyphs {x : Nat} {s t : VM} (h : _fx55 x s = .ok t) (hi : 80 ≤ s.i)
    (hi16 : s.i < 65536) : ∀ j, j < 80 → t.memory j = s.memory j := by
  intro j hj
  simp only [_fx55] at h
  split at h
  · simp at h
  next m heq =>
    injection h with h; subst h
    exact fx55Loop_glyphs hi hi16 x s.memory m heq j hj

/-- Any successfully dispatched instruction executed with index register
`80 ≤ i < 65536` leaves the glyph bytes `memory[0..80)` unchanged. -/
theorem parse_glyphs {rnd : Nat} {s t : VM} (h : parse_op_code rnd s = .ok t)
    (hi : 80 ≤ s.i) (hi16 : s.i < 65536) : ∀ j, j < 80 → t.memory j = s.memory j := by
  intro j hj
  by_cases hf0 : s.op &&& 0xF000 = 0x0000
  · by_cases ha : s.op &&& 0x00FF = 0xE0
    · simp [parse_op_code, hf0, ha] at h
      exact congrFun (memPres_0x00e0 h) j
    · by_cases hb : s.op &&& 0x00FF = 0xEE
      · simp [parse_op_code, hf0, ha, hb] at h
        exact congrFun (memPres_0x00ee h) j
      · simp [parse_op_code, hf0, ha, hb] at h
        subst h; rfl
  · by_cases hf1 : s.op &&& 0xF000 = 0x1000
    · simp [parse_op_code, hf0, hf1] at h
      exact congrFun (memPres_1nnn h) j
    · by_cases hf2 : s.op &&& 0xF000 = 0x2000
      · simp [parse_op_code, hf0, hf1, hf2] at h
        exact congrFun (memPres_2nnn h) j
      · by_cases hf3 : s.op &&& 0xF000 = 0x3000
        · simp [parse_op_code, hf0, hf1, hf2, hf3] at h
          exact congrFun (memPres_3xkk h) j
        · by_cases hf4 : s.op &&& 0xF000 = 0x4000
          · simp [parse_op_code, hf0, hf1, hf2, hf3, hf4] at h
            exact congrFun (memPres_4xkk h) j
          · by_cases hf5 : s.op &&& 0xF000 = 0x5000
            · simp [parse_op_code, hf0, hf1, hf2, hf3, hf4, hf5] at h
              exact congrFun (memPres_5xy0 h) j
            · by_cases hf6 : s.op &&& 0xF000 = 0x6000
              · simp [parse_op_code, hf0, hf1, hf2, hf3, hf4, hf5, hf6] at h
                exact congrFun (memPres_6xkk h) j
              · by_cases hf7 : s.op &&& 0xF000 = 0x7000
                · simp [parse_op_code, hf0, hf1, hf2, hf3, hf4, hf5, hf6, hf7] at h
                  exact congrFun (memPres_7xkk h) j
                · by_cases hf8 : s.op &&& 0xF000 = 0x8000
                  · by_cases hn0 : s.op &&& 0x000F = 0x0
                    · simp [parse_op_code, hf0, hf1, hf2, hf3, hf4, hf5, hf6, hf7, hf8, hn0] at h
                      exact congrFun (memPres_8xy0 h) j
                    · by_cases hn1 : s.op &&& 0x000F = 0x1
                      · simp [parse_op_code, hf0, hf1, hf2, hf3, hf4, hf5, hf6, hf7, hf8, hn0, hn1] at h
                        exact congrFun (memPres_8xy1 h) j
                      · by_cases hn2 : s.op &&& 0x000F = 0x2
                        · simp [parse_op_code, hf0, hf1, hf2, hf3, hf4, hf5, hf6, hf7, hf8, hn0, hn1, hn2] at h
                          exact congrFun (memPres_8xy2 h) j
                        · by_cases hn3 : s.op &&& 0x000F = 0x3
                          · simp [parse_op_code, hf0, hf1, hf2, hf3, hf4, hf5, hf6, hf7, hf8, hn0, hn1, hn2, hn3] at h
                            exact congrFun (memPres_8xy3 h) j
                          · by_cases hn4 : s.op &&& 0x000F = 0x4
                            · simp [parse_op_code, hf0, hf1, hf2, hf3, hf4, hf5, hf6, hf7, hf8, hn0, hn1, hn2, hn3, hn4] at h
                              exact congrFun (memPres_8xy4 h) j
                            · by_cases hn5 : s.op &&& 0x000F = 0x5
                              · simp [parse_op_code, hf0, hf1, hf2, hf3, hf4, hf5, hf6, hf7, hf8, hn0, hn1, hn2, hn3, hn4, hn5] at h
                                exact congrFun (memPres_8xy5 h) j
                              · by_cases hn6 : s.op &&& 0x000F = 0x6
                                · simp [parse_op_code, hf0, hf1, hf2, hf3, hf4, hf5, hf6, hf7, hf8, hn0, hn1, hn2, hn3, hn4, hn5, hn6] at h
                                  exact congrFun (memPres_8xy6 h) j
                                · by_cases hn7 : s.op &&& 0x000F = 0x7
                                  · simp [parse_op_code, hf0, hf1, hf2, hf3, hf4, hf5, hf6, hf7, hf8, hn0, hn1, hn2, hn3, hn4, hn5, hn6, hn7] at h
                                    exact congrFun (memPres_8xy7 h) j
                                  · by_cases hn8 : s.op &&& 0x000F = 0x8
                                    · simp [parse_op_code, hf0, hf1, hf2, hf3, hf4, hf5, hf6, hf7, hf8, hn0, hn1, hn2, hn3, hn4, hn5, hn6, hn7, hn8] at h
                                      exact congrFun (memPres_8xye h) j
                                    · simp [parse_op_code, hf0, hf1, hf2, hf3, hf4, hf5, hf6, hf7, hf8, hn0, hn1, hn2, hn3, hn4, hn5, hn6, hn7, hn8] at h
                                      subst h; rfl
                  · by_cases hf9 : s.op &&& 0xF000 = 0x9000
                    · simp [parse_op_code, hf0, hf1, hf2, hf3, hf4, hf5, hf6, hf7, hf8, hf9] at h
                      exact congrFun (memPres_9xy0 h) j
                    · by_cases hfA : s.op &&& 0xF000 = 0xA000
                      · simp [parse_op_code, hf0, hf1, hf2, hf3, hf4, hf5, hf6, hf7, hf8, hf9, hfA] at h
                        exact congrFun (memPres_annn h) j
                      · by_cases hfB : s.op &&& 0xF000 = 0xB000
                        · simp [parse_op_code, hf0, hf1, hf2, hf3, hf4, hf5, hf6, hf7, hf8, hf9, hfA, hfB] at h
                          exact congrFun (memPres_bnnn h) j
                        · by_cases hfC : s.op &&& 0xF000 = 0xC000
                          · simp [parse_op_code, hf0, hf1, hf2, hf3, hf4, hf5, hf6, hf7, hf8, hf9, hfA, hfB, hfC] at h
                            exact congrFun (memPres_cxkk h) j
                          · by_cases hfD : s.op &&& 0xF000 = 0xD000
                            · simp [parse_op_code, hf0, hf1, hf2, hf3, hf4, hf5, hf6, hf7, hf8, hf9, hfA, hfB, hfC, hfD] at h
                              exact congrFun (memPres_dxyn h) j
                            · by_cases hfE : s.op &&& 0xF000 = 0xE000
                              · by_cases hea : s.op &&& 0x00FF = 0x9E
                                · simp [parse_op_code, hf0, hf1, hf2, hf3, hf4, hf5, hf6, hf7, hf8, hf9, hfA, hfB, hfC, hfD, hfE, hea] at h
                                  exact congrFun (memPres_ex9e h) j
                                · by_cases heb : s.op &&& 0x00FF = 0xA1
                                  · simp [parse_op_code, hf0, hf1, hf2, hf3, hf4, hf5, hf6, hf7, hf8, hf9, hfA, hfB, hfC, hfD, hfE, hea, heb] at h
                                    exact congrFun (memPres_exa1 h) j
                                  · simp [parse_op_code, hf0, hf1, hf2, hf3, hf4, hf5, hf6, hf7, hf8, hf9, hfA, hfB, hfC, hfD, hfE, hea, heb] at h
                                    subst h; rfl
                              · by_cases hfF : s.op &&& 0xF000 = 0xF000
                                · by_cases hga : s.op &&& 0x00FF = 0xA1
                                  · simp [parse_op_code, hf0, hf1, hf2, hf3, hf4, hf5, hf6, hf7, hf8, hf9, hfA, hfB, hfC, hfD, hfE, hfF, hga] at h
                                    exact congrFun (memPres_exa1 h) j
                                  · by_cases hgb : s.op &&& 0x00FF = 0x07
                                    · simp [parse_op_code, hf0, hf1, hf2, hf3, hf4, hf5, hf6, hf7, hf8, hf9, hfA, hfB, hfC, hfD, hfE, hfF, hga, hgb] at h
                                      exact congrFun (memPres_fx07 h) j
                                    · by_cases hgc : s.op &&& 0x00FF = 0x0A
                                      · simp [parse_op_code, hf0, hf1, hf2, hf3, hf4, hf5, hf6, hf7, hf8, hf9, hfA, hfB, hfC, hfD, hfE, hfF, hga, hgb, hgc] at h
                                        exact congrFun (memPres_fx0a h) j
                                      · by_cases hgd : s.op &&& 0x00FF = 0x15
                                        · simp [parse_op_code, hf0, hf1, hf2, hf3, hf4, hf5, hf6, hf7, hf8, hf9, hfA, hfB, hfC, hfD, hfE, hfF, hga, hgb, hgc, hgd] at h
                                          exact congrFun (memPres_fx15 h) j
                                        · by_cases hge : s.op &&& 0x00FF = 0x18
                                          · simp [parse_op_code, hf0, hf1, hf2, hf3, hf4, hf5, hf6, hf7, hf8, hf9, hfA, hfB, hfC, hfD, hfE, hfF, hga, hgb, hgc, hgd, hge] at h
                                            exact congrFun (memPres_fx18 h) j
                                          · by_cases hgf : s.op &&& 0x00FF = 0x1E
                                            · simp [parse_op_code, hf0, hf1, hf2, hf3, hf4, hf5, hf6, hf7, hf8, hf9, hfA, hfB, hfC, hfD, hfE, hfF, hga, hgb, hgc, hgd, hge, hgf] at h
                                              exact congrFun (memPres_fx1e h) j
                                            · by_cases hgg : s.op &&& 0x00FF = 0x29
                                              · simp [parse_op_code, hf0, hf1, hf2, hf3, hf4, hf5, hf6, hf7, hf8, hf9, hfA, hfB, hfC, hfD, hfE, hfF, hga, hgb, hgc, hgd, hge, hgf, hgg] at h
                                                exact congrFun (memPres_fx29 h) j
                                              · by_cases hgh : s.op &&& 0x00FF = 0x33
                                                · simp [parse_op_code, hf0, hf1, hf2, hf3, hf4, hf5, hf6, hf7, hf8, hf9, hfA, hfB, hfC, hfD, hfE, hfF, hga, hgb, hgc, hgd, hge, hgf, hgg, hgh] at h
                                                  exact fx33_glyphs h hi j hj
                                                · by_cases hgi : s.op &&& 0x00FF = 0x55
                                                  · simp [parse_op_code, hf0, hf1, hf2, hf3, hf4, hf5, hf6, hf7, hf8, hf9, hfA, hfB, hfC, hfD, hfE, hfF, hga, hgb, hgc, hgd, hge, hgf, hgg, hgh, hgi] at h
                                                    exact fx55_glyphs h hi hi16 j hj
                                                  · by_cases hgj : s.op &&& 0x00FF = 0x65
                                                    · simp [parse_op_code, hf0, hf1, hf2, hf3, hf4, hf5, hf6, hf7, hf8, hf9, hfA, hfB, hfC, hfD, hfE, hfF, hga, hgb, hgc, hgd, hge, hgf, hgg, hgh, hgi, hgj] at h
                                                      exact congrFun (memPres_fx65 h) j
                                                    · simp [parse_op_code, hf0, hf1, hf2, hf3, hf4, hf5, hf6, hf7, hf8, hf9, hfA, hfB, hfC, hfD, hfE, hfF, hga, hgb, hgc, hgd, hge, hgf, hgg, hgh, hgi, hgj] at h
                                · simp [parse_op_code, hf0, hf1, hf2, hf3, hf4, hf5, hf6, hf7, hf8, hf9, hfA, hfB, hfC, hfD, hfE, hfF] at h

/-- C8's counterexample: the state `s8c`, reached from the startup state by
loading the 4-byte ROM `A000 F033` and executing two cycles, is `Reachable`,
yet its glyph byte `memory[0] = 0` differs from the font constant 0xF0 = 240
still present in the startup state — store-BCD with `i = 0` overwrote it. -/
theorem C8_glyphs_overwritten_counterexample :
    Reachable s8c ∧ s8c.memory 0 = 0 ∧ initVM.memory 0 = 240 :=
  ⟨Reachable.step 0 s8b s8c
      (Reachable.step 0 s8a s8b (Reachable.load rom8 s8a rfl) rfl) rfl,
    rfl, rfl⟩

/-- C8 (amended): a single fetch-decode-execute cycle never changes the 80
glyph bytes `memory[0..80)` provided the index register satisfies
`80 ≤ i < 65536` before it; without that precondition, store-BCD and
store-registers write through the index register and can overwrite the glyph
table (see the counterexample), so the unconditional invariant claimed by the
specification does not hold. -/
theorem C8_glyph_preservation (rnd : Nat) (s t : VM) (h : emulate_cycle rnd s = .ok t)
    (hi : 80 ≤ s.i) (hi16 : s.i < 65536) : ∀ j, j < 80 → t.memory j = s.memory j := by
  simp only [emulate_cycle] at h
  split at h
  · simp at h
  · split at h
    · simp at h
    · have hp := parse_glyphs h hi hi16
      exact hp

/-- Witness for C8 (amended): a concrete cycle (a jump instruction) executed
with `i = 0x100` leaves every glyph byte unchanged. -/
theorem C8_glyph_preservation_witness :
    (80 ≤ c8w.i ∧ c8w.i < 65536) ∧
    ∀ j, j < 80 → ({ c8w with op := 0x1234, pc := 0x234 } : VM).memory j = c8w.memory j := by
  refine ⟨⟨by decide, by decide⟩, ?_⟩
  intro j hj
  exact C8_glyph_preservation 0 c8w _ rfl (by decide) (by decide) j hj

/-- Every bit column of the sprite byte 0xFF is set. -/
theorem bit255 {c : Nat} (hc : c < 8) : (255 >>> (7 - c)) &&& 1 = 1 := by
  interval_cases c <;> decide

/-- Column loop of the draw handler on sprite byte 0xFF over initially unlit
target cells: after `k ≤ 8` columns the first `k` targets are lit, the rest
still unlit, and no collision was recorded. -/
theorem dxynInner_all_clear (disp : Nat → Nat) (R X : Nat)
    (h0 : ∀ c, c < 8 → disp (R * 64 + (X + c) % 64) = 0) :
    ∀ k, k ≤ 8 →
      (dxynInner disp 0 255 R X k).2 = 0 ∧
      ∀ c, c < 8 → (dxynInner disp 0 255 R X k).1 (R * 64 + (X + c) % 64) =
        if c < k then 1 else 0 := by
  intro k
  induction k with
  | zero =>
    intro _
    refine ⟨rfl, fun c hc => ?_⟩
    rw [if_neg (by omega)]
    exact h0 c hc
  | succ n ih =>
    intro hk
    obtain ⟨ihf, ihd⟩ := ih (by omega)
    have hbit : (255 >>> (7 - n)) &&& 1 = 1 := bit255 (by omega)
    have hdn : (dxynInner disp 0 255 R X n).1 (R * 64 + (X + n) % 64) = 0 := by
      rw [ihd n (by omega), if_neg (by omega)]
    constructor
    · simp only [dxynInner, hbit, hdn]
      simp [ihf]
    · intro c hc
      simp only [dxynInner, hbit]
      rcases eq_or_ne c n with hcn | hcn
      · subst hcn
        simp [updArr, hdn]
      · have hne : R * 64 + (X + c) % 64 ≠ R * 64 + (X + n) % 64 := by omega
        simp only [updArr]
        rw [if_neg hne, ihd c hc]
        rcases Nat.lt_or_ge c n with h2 | h2
        · rw [if_pos h2, if_pos (by omega)]
        · rw [if_neg (by omega), if_neg (by omega)]

/-- Column loop of the draw handler on sprite byte 0xFF over initially lit
target cells: after `k ≤ 8` columns the first `k` targets are unlit, the rest
still lit, and a collision was recorded as soon as one column ran. -/
theorem dxynInner_all_set (disp : Nat → Nat) (R X f0 : Nat)
    (h0 : ∀ c, c < 8 → disp (R * 64 + (X + c) % 64) = 1) :
    ∀ k, k ≤ 8 →
      ((dxynInner disp f0 255 R X k).2 = if k = 0 then f0 else 1) ∧
      ∀ c, c < 8 → (dxynInner disp f0 255 R X k).1 (R * 64 + (X + c) % 64) =
        if c < k then 0 else 1 := by
  intro k
  induction k with
  | zero =>
    intro _
    refine ⟨rfl, fun c hc => ?_⟩
    rw [if_neg (by omega)]
    exact h0 c hc
  | succ n ih =>
    intro hk
    obtain ⟨ihf, ihd⟩ := ih (by omega)
    have hbit : (255 >>> (7 - n)) &&& 1 = 1 := bit255 (by omega)
    have hdn : (dxynInner disp f0 255 R X n).1 (R * 64 + (X + n) % 64) = 1 := by
      rw [ihd n (by omega), if_neg (by omega)]
    constructor
    · simp only [dxynInner, hbit, hdn]
      simp
    · intro c hc
      simp only [dxynInner, hbit]
      rcases eq_or_ne c n with hcn | hcn
      · subst hcn
        simp [updArr, hdn]
      · have hne : R * 64 + (X + c) % 64 ≠ R * 64 + (X + n) % 64 := by omega
        simp only [updArr]
        rw [if_neg hne, ihd c hc]
        rcases Nat.lt_or_ge c n with h2 | h2
        · rw [if_pos h2, if_pos (by omega)]
        · rw [if_neg (by omega), if_neg (by omega)]

/-- Row loop of the draw handler for a single-row sprite whose byte sits at a
valid index: one bounds-checked read, then the 8-column pass. -/
theorem dxynRows_one {mem disp : Nat → Nat} {idx0 ypos xpos vf : Nat}
    (hidx : idx0 < 4096) (hmem : mem idx0 = 255) :
    dxynRows mem idx0 ypos xpos disp vf 1 =
      .ok (dxynInner disp vf 255 (ypos % 32) xpos 8) := by
  have e0 : idx0 % 65536 = idx0 := Nat.mod_eq_of_lt (by omega)
  simp [dxynRows, readArr, e0, hidx, hmem]

/-- The draw handler on a height-1 opcode with the sprite byte 0xFF at a
valid memory index: explicit resulting state. -/
theorem dxyn_one {x y : Nat} {s : VM} (hop : s.op &&& 0x000F = 1) (hidx : s.i < 4096)
    (hmem : s.memory s.i = 255) :
    _dxyn x y s = .ok { s with
      display := (dxynInner s.display 0 255 (s.v y % 32) (s.v x) 8).1,
      v := updArr s.v 15 (dxynInner s.display 0 255 (s.v y % 32) (s.v x) 8).2,
      drawflag := true, pc := (s.pc + 2) % 65536 } := by
  simp only [_dxyn, hop, dxynRows_one hidx hmem]

/-- C9's counterexample: drawing the same single-row 0xFF sprite twice at the
same position over an ALREADY-LIT row ends with `v[0xF] = 0` after the second
draw and the row lit again — refuting the claim's universal quantification
over every state (XOR restores the original cells, which need not be unlit,
and the second pass sees all-unlit cells, so no collision is detected). -/
theorem C9_double_draw_counterexample :
    c9cex.memory c9cex.i = 0xFF ∧ c9cex.display (spriteTarget 0 0 0) = 1 ∧
    ((_dxyn 0 1 c9cex).bind (_dxyn 0 1)).toOption.map
      (fun t => (t.v 15, t.display (spriteTarget 0 0 0))) = some (0, 1) := by
  decide

/-- C9 (amended): for every state whose current opcode has height nibble 1,
whose index register points at a sprite byte 0xFF inside memory, and whose 8
wraparound target cells are initially UNLIT, drawing twice at the same
position (registers `x, y ≠ 0xF`) lights the row, then clears it again and
sets `v[0xF] = 1` on the second draw (no collision on the first). -/
theorem C9_double_draw (s : VM) (x y : Nat) (hx15 : x ≠ 15) (hy15 : y ≠ 15)
    (hop : s.op &&& 0x000F = 1) (hi : s.i < 4096) (hmem : s.memory s.i = 255)
    (hclear : ∀ c, c < 8 → s.display (spriteTarget (s.v x) (s.v y) c) = 0) :
    ∃ t u, _dxyn x y s = .ok t ∧ _dxyn x y t = .ok u ∧ t.v 15 = 0 ∧
      (∀ c, c < 8 → t.display (spriteTarget (s.v x) (s.v y) c) = 1) ∧
      u.v 15 = 1 ∧
      ∀ c, c < 8 → u.display (spriteTarget (s.v x) (s.v y) c) = 0 := by
  obtain ⟨hf1, hd1⟩ := dxynInner_all_clear s.display (s.v y % 32) (s.v x) hclear 8 (le_refl 8)
  have h1 := dxyn_one (x := x) (y := y) (s := s) hop hi hmem
  set T : VM := { s with
      display := (dxynInner s.display 0 255 (s.v y % 32) (s.v x) 8).1,
      v := updArr s.v 15 (dxynInner s.display 0 255 (s.v y % 32) (s.v x) 8).2,
      drawflag := true, pc := (s.pc + 2) % 65536 } with hTdef
  have htop : T.op &&& 0x000F = 1 := hop
  have hti : T.i < 4096 := hi
  have htm : T.memory T.i = 255 := hmem
  have htd : T.display = (dxynInner s.display 0 255 (s.v y % 32) (s.v x) 8).1 := rfl
  have htvx : T.v x = s.v x := by simp [hTdef, updArr, hx15]
  have htvy : T.v y = s.v y := by simp [hTdef, updArr, hy15]
  have h2 := dxyn_one (x := x) (y := y) (s := T) htop hti htm
  rw [htd, htvx, htvy] at h2
  have hset : ∀ c, c < 8 →
      (dxynInner s.display 0 255 (s.v y % 32) (s.v x) 8).1
        ((s.v y % 32) * 64 + (s.v x + c) % 64) = 1 := by
    intro c hc
    rw [hd1 c hc, if_pos hc]
  obtain ⟨hf2, hd2⟩ := dxynInner_all_set
    (dxynInner s.display 0 255 (s.v y % 32) (s.v x) 8).1 (s.v y % 32) (s.v x) 0 hset 8
    (le_refl 8)
  norm_num at hf2
  refine ⟨T, _, h1, h2, ?_, ?_, ?_, ?_⟩
  · simp [hTdef, updArr, hf1]
  · intro c hc
    have hcell := hd1 c hc
    rw [if_pos hc] at hcell
    simpa [hTdef, spriteTarget] using hcell
  · simp [updArr, hf2]
  · intro c hc
    have hcell := hd2 c hc
    rw [if_pos hc] at hcell
    simpa [spriteTarget] using hcell

/-- Witness for C9 (amended) at a concrete state: position `(3, 2)`, sprite
byte at `memory[0x300]`, clear framebuffer. -/
theorem C9_double_draw_witness :
    ∃ t u, _dxyn 0 1 c9w = .ok t ∧ _dxyn 0 1 t = .ok u ∧ t.v 15 = 0 ∧
      (∀ c, c < 8 → t.display (spriteTarget (c9w.v 0) (c9w.v 1) c) = 1) ∧
      u.v 15 = 1 ∧
      ∀ c, c < 8 → u.display (spriteTarget (c9w.v 0) (c9w.v 1) c) = 0 :=
  C9_double_draw c9w 0 1 (by decide) (by decide) (by decide) (by decide) rfl
    (by decide)

/-- Witness for C10 at the three concrete register assignments of the claim. -/
theorem C10_add_sub_flags_witness :
    (∃ t, _8xy4 0 1 c10a = .ok t ∧ t.v 0 = 44 ∧ t.v 15 = 1 ∧
      t.pc = (c10a.pc + 2) % 65536) ∧
    (∃ t, _8xy5 0 1 c10b = .ok t ∧ t.v 0 = 7 ∧ t.v 15 = 1 ∧
      t.pc = (c10b.pc + 2) % 65536) ∧
    (∃ t, _8xy5 0 1 c10c = .ok t ∧ t.v 0 = 249 ∧ t.v 15 = 0 ∧
      t.pc = (c10c.pc + 2) % 65536) :=
  ⟨(C10_add_sub_flags c10a).1 rfl rfl,
   (C10_add_sub_flags c10b).2.1 rfl rfl,
   (C10_add_sub_flags c10c).2.2 rfl rfl⟩

end Chip8
